import Mathlib

/-!
Verification of the certificate composition core of the `certificate_tb`
backend (`backend/services.py`, `backend/utils.py`).

The Python code is shallowly embedded:

* Python floats (the padding percentages `0.05`, `0.08`, `0.12`, `0.15`,
  and the device multipliers `1.0`, `1.2`, `1.05`) are modelled as exact
  rationals in `ℚ`.  Every concrete comparison used in a theorem below is
  far from the sub-ulp rounding error of IEEE doubles, and has been
  checked to agree with the float computation at the concrete inputs used.
* Python integer floor division `//` (only used with the positive literal
  divisor `2`) is modelled as `Int.ediv`, which coincides with floor
  division for a positive divisor.
* Effectful collaborators (PIL image handles, the font loader, the
  operating system clock, the secrets module) are passed in as explicit
  parameters: a text measurement becomes a pair `(tw, th)`, the font
  loader becomes a `String → ℕ → Bool` success oracle, the clock becomes
  `(y, m, d)`, and the random choices become `Fin 6 → Fin 36`.
-/

/-- Python `max` on two rationals, written so that it evaluates by kernel
reduction (Mathlib's `max` on `ℚ` does not reduce under `decide`). -/
def maxQ (a b : ℚ) : ℚ := if b ≤ a then a else b

/-- Python `min` on two rationals, kernel-reducible. -/
def minQ (a b : ℚ) : ℚ := if a ≤ b then a else b

lemma maxQ_eq (a b : ℚ) : maxQ a b = max a b := by
  unfold maxQ
  split_ifs with h
  · exact (max_eq_left h).symm
  · exact (max_eq_right (le_of_lt (not_le.mp h))).symm

lemma minQ_eq (a b : ℚ) : minQ a b = min a b := by
  unfold minQ
  split_ifs with h
  · exact (min_eq_left h).symm
  · exact (min_eq_right (le_of_lt (not_le.mp h))).symm

/-- Device-specific horizontal padding, from `_calculate_text_position`
(`backend/services.py` lines 158-169).  `rect_width` is `x2 - x1` cast
to `ℚ`; the float literals `0.08`, `0.12`, `0.05`, `0.06` are modelled
as exact rationals. -/
def padding_x (device_type : String) (rect_width : ℚ) : ℚ :=
  if device_type = "mobile" then
    maxQ 6 (minQ (rect_width * (8 / 100)) (rect_width * (12 / 100)))
  else if device_type = "desktop" then
    maxQ 5 (rect_width * (5 / 100))
  else
    maxQ 6 (rect_width * (6 / 100))

/-- Device-specific vertical padding, from `_calculate_text_position`
(`backend/services.py` lines 158-169). -/
def padding_y (device_type : String) (rect_height : ℚ) : ℚ :=
  if device_type = "mobile" then
    maxQ 4 (minQ (rect_height * (8 / 100)) (rect_height * (15 / 100)))
  else if device_type = "desktop" then
    maxQ 5 (rect_height * (5 / 100))
  else
    maxQ 4 (rect_height * (8 / 100))

/-- Python `max(lo, min(v, hi))`, the clamp used at lines 192-193 and
218-219 of `backend/services.py`. -/
def clampQ (lo v hi : ℚ) : ℚ := maxQ lo (minQ v hi)

/-- First-pass horizontal alignment (`backend/services.py` lines 176-181):
`left`, `right`, and anything else treated as `center`.  The center branch
is Python `x1 + (rect_width - text_width) // 2`; `//` with positive
divisor 2 is floor division, which is `Int.ediv`, written `/` on `ℤ`. -/
def text_x_aligned (x1 x2 tw : ℤ) (pad_x : ℚ) (text_align : String) : ℚ :=
  if text_align = "left" then (x1 : ℚ) + pad_x
  else if text_align = "right" then (x2 : ℚ) - (tw : ℚ) - pad_x
  else ((x1 + ((x2 - x1) - tw) / 2 : ℤ) : ℚ)

/-- First-pass vertical alignment (`backend/services.py` lines 184-189). -/
def text_y_aligned (y1 y2 th : ℤ) (pad_y : ℚ) (vertical_align : String) : ℚ :=
  if vertical_align = "top" then (y1 : ℚ) + pad_y
  else if vertical_align = "bottom" then (y2 : ℚ) - (th : ℚ) - pad_y
  else ((y1 + ((y2 - y1) - th) / 2 : ℤ) : ℚ)

/-- Alignment refinement pass (`backend/services.py` lines 196-204): for a
recognized `text_align` the alignment formula is recomputed, otherwise the
clamped value `prev` is kept. -/
def text_x_refined (prev : ℚ) (x1 x2 tw : ℤ) (pad_x : ℚ) (text_align : String) : ℚ :=
  if text_align = "center" then ((x1 + ((x2 - x1) - tw) / 2 : ℤ) : ℚ)
  else if text_align = "right" then (x2 : ℚ) - (tw : ℚ) - pad_x
  else if text_align = "left" then (x1 : ℚ) + pad_x
  else prev

/-- Vertical refinement pass (`backend/services.py` lines 206-214). -/
def text_y_refined (prev : ℚ) (y1 y2 th : ℤ) (pad_y : ℚ) (vertical_align : String) : ℚ :=
  if vertical_align = "center" then ((y1 + ((y2 - y1) - th) / 2 : ℤ) : ℚ)
  else if vertical_align = "bottom" then (y2 : ℚ) - (th : ℚ) - pad_y
  else if vertical_align = "top" then (y1 : ℚ) + pad_y
  else prev

/-- Full horizontal pipeline of `_calculate_text_position`: align
(lines 176-181), clamp (line 192), refine (lines 196-204), clamp again
(line 218). -/
def text_x_final (x1 x2 tw : ℤ) (text_align device_type : String) : ℚ :=
  let pad_x := padding_x device_type ((x2 - x1 : ℤ) : ℚ)
  let lo := (x1 : ℚ) + pad_x
  let hi := (x2 : ℚ) - (tw : ℚ) - pad_x
  clampQ lo
    (text_x_refined (clampQ lo (text_x_aligned x1 x2 tw pad_x text_align) hi)
      x1 x2 tw pad_x text_align) hi

/-- Full vertical pipeline of `_calculate_text_position`: align
(lines 184-189), clamp (line 193), refine (lines 206-214), clamp again
(line 219). -/
def text_y_final (y1 y2 th : ℤ) (vertical_align device_type : String) : ℚ :=
  let pad_y := padding_y device_type ((y2 - y1 : ℤ) : ℚ)
  let lo := (y1 : ℚ) + pad_y
  let hi := (y2 : ℚ) - (th : ℚ) - pad_y
  clampQ lo
    (text_y_refined (clampQ lo (text_y_aligned y1 y2 th pad_y vertical_align) hi)
      y1 y2 th pad_y vertical_align) hi

/-- `_calculate_text_position` (`backend/services.py` lines 143-222) as a
function of the measured text extent `(tw, th)`.  The horizontal and
vertical computations in the source are fully independent; the returned
pair is the draw origin of the text. -/
def calculate_text_position (x1 y1 x2 y2 tw th : ℤ)
    (text_align vertical_align device_type : String) : ℚ × ℚ :=
  (text_x_final x1 x2 tw text_align device_type,
   text_y_final y1 y2 th vertical_align device_type)

/-- Fallback text extent when measurement fails
(`backend/services.py` lines 149-152): `len(text) * 10` by `20`. -/
def fallback_text_extent (text : String) : ℤ × ℤ := ((text.length : ℤ) * 10, 20)

/-- Device multiplier for font sizes (`backend/services.py` lines 299-309):
`1.2` for mobile, `1.0` for desktop, `1.05` otherwise, as exact rationals. -/
def device_multiplier (device_type : String) : ℚ :=
  if device_type = "mobile" then 6 / 5
  else if device_type = "desktop" then 1
  else 21 / 20

/-- Font size actually requested from the loader
(`backend/services.py` lines 349-350): Python
`int(base_font_size * device_multiplier)`, i.e. truncation toward zero,
which is the floor for the nonnegative values arising here. -/
def resolved_font_size (device_type : String) (base_font_size : ℕ) : ℕ :=
  (Int.floor ((base_font_size : ℚ) * device_multiplier device_type)).toNat

/-- A placeholder record as consumed by `generate_certificate`
(`backend/services.py` lines 312-354 and 642-645).  `x1` is optional
because the code guards only on `ph.get("x1") is not None`; the remaining
corners and style keys are indexed directly once that guard passes, and
absent style keys fall back through `dict.get` defaults, modelled with
`Option`. -/
structure Placeholder where
  x1 : Option ℤ
  y1 : ℤ
  x2 : ℤ
  y2 : ℤ
  color : Option String
  font_size : Option ℕ
  text_align : Option String
  vertical_align : Option String
deriving DecidableEq

/-- The fixed default ink color (`backend/services.py` line 284). -/
def default_text_color : String := "#0b2a4a"

/-- Python `s.startswith("#")`: the first character is `#`.  Stated on
`s.data` so that it evaluates by kernel reduction. -/
def starts_with_hash (s : String) : Bool :=
  match s.data with
  | [] => false
  | c :: _ => c == '#'

/-- Color selection for a field (`backend/services.py` lines 334-346):
`raw_color = placeholder.get("color", text_color)` followed by
`if raw_color and raw_color.startswith("#")`.  An absent key or a `None`
value is `none`; an empty string is falsy in Python, hence the
`isEmpty` test. -/
def parse_color (raw : Option String) : String :=
  match raw with
  | none => default_text_color
  | some c =>
    if c.data.isEmpty then default_text_color
    else if starts_with_hash c then c
    else default_text_color

/-- A hexadecimal digit character. -/
def is_hex_digit (c : Char) : Bool :=
  c.isDigit || ('a' ≤ c && c ≤ 'f') || ('A' ≤ c && c ≤ 'F')

/-- A well-formed `#RRGGBB` hex color string.  This definition follows the
spec wording ("a hex RGB string"); the source never checks this, which is
what claim C9 is about. -/
def is_valid_hex_color (s : String) : Bool :=
  match s.data with
  | '#' :: rest => rest.length = 6 && rest.all is_hex_digit
  | _ => false

/-- One `draw.text` call: position, string drawn, fill color. -/
structure DrawOp where
  x : ℚ
  y : ℚ
  content : String
  fill : String
deriving DecidableEq

/-- Python `range(-r, r+1)` as a list of integers. -/
def stroke_range (r : ℕ) : List ℤ :=
  (List.range (2 * r + 1)).map (fun i => (i : ℤ) - (r : ℤ))

/-- The nested stroke loops `for adj in range(-r, r+1): for adj2 in ...`
(`backend/services.py` lines 403-405 with `r = 2`, lines 599-601 with
`r = 1`). -/
def stroke_offsets (r : ℕ) : List (ℤ × ℤ) :=
  (stroke_range r).flatMap (fun a => (stroke_range r).map (fun b => (a, b)))

/-- Stroke-by-redraw text drawing: the white halo passes followed by the
real text in the field's ink color (`backend/services.py` lines 403-406). -/
def draw_text_with_stroke (pos : ℚ × ℚ) (content fill : String) (r : ℕ) : List DrawOp :=
  (stroke_offsets r).map
    (fun d => { x := pos.1 + (d.1 : ℚ), y := pos.2 + (d.2 : ℚ),
                content := content, fill := "white" })
    ++ [{ x := pos.1, y := pos.2, content := content, fill := fill }]

/-- The student-name branch of `generate_certificate`
(`backend/services.py` lines 336-406), for a placeholder that passed the
`x1 is not None` guard (`name_x1` is the value inside `ph.x1`): alignment
defaults `center`/`center` (lines 353-354), color parsing (lines 343-346),
position via `_calculate_text_position`, then a radius-2 stroke draw.
`(tw, th)` is the measured extent of `student_name`.  There is no
validation of the rectangle anywhere on this path. -/
def render_name_field (ph : Placeholder) (name_x1 : ℤ) (student_name : String)
    (tw th : ℤ) (device_type : String) : List DrawOp :=
  let pos := calculate_text_position name_x1 ph.y1 ph.x2 ph.y2 tw th
    (ph.text_align.getD ("center")) (ph.vertical_align.getD ("center")) device_type
  draw_text_with_stroke pos student_name (parse_color ph.color) 2

/-- The certificate-number branch of `generate_certificate`
(`backend/services.py` lines 528-603): alignment defaults
`left`/`center` (lines 544-545), radius-1 stroke, and the drawn string is
the freshly generated `certificate_id`. -/
def render_cert_no_field (ph : Placeholder) (cert_x1 : ℤ) (certificate_id : String)
    (tw th : ℤ) (device_type : String) : List DrawOp :=
  let pos := calculate_text_position cert_x1 ph.y1 ph.x2 ph.y2 tw th
    (ph.text_align.getD ("left")) (ph.vertical_align.getD ("center")) device_type
  draw_text_with_stroke pos certificate_id (parse_color ph.color) 1

/-- `qr_size = 150` (`backend/services.py` line 638). -/
def qr_size : ℤ := 150

/-- `verification_url = f"{base_url}/verify/{certificate_id}"`
(`backend/services.py` line 630). -/
def verification_url (base_url certificate_id : String) : String :=
  base_url ++ "/verify/" ++ certificate_id

/-- Outcome of the QR step: the encoded payload, the resized image
dimensions, and the paste corner. -/
structure QrResult where
  payload : String
  qr_w : ℤ
  qr_h : ℤ
  paste_x : ℤ
  paste_y : ℤ
deriving DecidableEq

/-- The QR step of `generate_certificate`
(`backend/services.py` lines 627-653): payload is the verification URL for
the composition's `certificate_id`, the image is resized to
`qr_size × qr_size`, and the paste corner is the placeholder's `(x1, y1)`
when present (no alignment or padding applied), else the bottom-right
fallback `(width - qr_size - 50, height - qr_size - 50)`. -/
def qr_step (base_url certificate_id : String) (qr_placeholder : Option Placeholder)
    (img_w img_h : ℤ) : QrResult :=
  let pos : ℤ × ℤ :=
    match qr_placeholder with
    | some p =>
      match p.x1 with
      | some a => (a, p.y1)
      | none => (img_w - qr_size - 50, img_h - qr_size - 50)
    | none => (img_w - qr_size - 50, img_h - qr_size - 50)
  { payload := verification_url base_url certificate_id
    qr_w := qr_size
    qr_h := qr_size
    paste_x := pos.1
    paste_y := pos.2 }

/-- A font handle: either a truetype font loaded from a path at a size, or
the built-in default bitmap font with the originally requested size
recorded on it (`name_font.requested_size = name_font_size`,
`backend/services.py` lines 385-395). -/
inductive FontHandle where
  | truetype (path : String) (size : ℕ)
  | load_default (requested_size : ℕ)
deriving DecidableEq

/-- The ordered candidate font list (`backend/services.py` lines 361-374;
the same list is repeated at lines 456-469 and 554-567). -/
def font_paths : List String :=
  ["fonts/radley.ttf",
   "fonts/arial.ttf",
   "arial.ttf",
   "Arial.ttf",
   "C:/Windows/Fonts/arial.ttf",
   "C:/Windows/Fonts/calibri.ttf",
   "C:/Windows/Fonts/tahoma.ttf",
   "/System/Library/Fonts/Arial.ttf",
   "/System/Library/Fonts/Helvetica.ttc",
   "/usr/share/fonts/truetype/arial.ttf",
   "/usr/share/fonts/truetype/dejavu/DejaVuSans.ttf",
   "/usr/share/fonts/truetype/liberation/LiberationSans-Regular.ttf"]

/-- The font-loading loop (`backend/services.py` lines 376-395) over an
arbitrary candidate list: each candidate whose load fails (the `loader`
oracle returns `false`, modelling the swallowed exception) is skipped;
if all fail, the built-in default font is returned with the requested
size recorded. -/
def resolve_font_aux (loader : String → ℕ → Bool) (size : ℕ) :
    List String → FontHandle
  | [] => FontHandle.load_default size
  | p :: ps =>
    if loader p size then FontHandle.truetype p size
    else resolve_font_aux loader size ps

/-- Font resolution over the fixed candidate list
(`backend/services.py` lines 361-395). -/
def resolve_font (loader : String → ℕ → Bool) (size : ℕ) : FontHandle :=
  resolve_font_aux loader size font_paths

/-- The decimal digit character of `n % 10`. -/
def digit_char (n : ℕ) : Char := Char.ofNat (48 + n % 10)

/-- Zero-padded 4-digit decimal rendering, as `strftime("%Y")` produces
for years up to 9999. -/
def digits4 (n : ℕ) : List Char :=
  [digit_char (n / 1000), digit_char (n / 100), digit_char (n / 10), digit_char n]

/-- Zero-padded 2-digit decimal rendering, as `strftime("%m")` and
`strftime("%d")` produce. -/
def digits2 (n : ℕ) : List Char := [digit_char (n / 10), digit_char n]

/-- `datetime.now().strftime("%Y%m%d")` for the clock reading `(y, m, d)`
(`backend/utils.py` line 7). -/
def date_yyyymmdd (y m d : ℕ) : List Char := digits4 y ++ digits2 m ++ digits2 d

/-- `string.ascii_uppercase + string.digits`
(`backend/utils.py` line 8). -/
def cert_id_alphabet : List Char := "ABCDEFGHIJKLMNOPQRSTUVWXYZ0123456789".data

/-- `generate_certificate_id` (`backend/utils.py` lines 5-9):
`f"TBS-{date_str}-{random_suffix}"` where the six suffix characters are
drawn from `cert_id_alphabet` by `secrets.choice`, modelled by the
oracle `pick` (the source draws from a cryptographically secure source;
only the draws themselves are relevant to the format). -/
def generate_certificate_id (y m d : ℕ) (pick : Fin 6 → Fin 36) : String :=
  String.mk ("TBS-".data ++ date_yyyymmdd y m d ++ "-".data ++
    (List.finRange 6).map (fun i => cert_id_alphabet.getD (pick i).val 'A'))

/-- The spec's format `^TBS-\d{8}-[A-Z0-9]{6}$`, stated structurally: this
definition follows the claim's regex (the spec side of claim C5), to be
compared against `generate_certificate_id` from the source. -/
def cert_id_format (s : String) : Prop :=
  ∃ ds rs : List Char,
    s.data = "TBS-".data ++ ds ++ "-".data ++ rs ∧
    ds.length = 8 ∧ (∀ c ∈ ds, c.isDigit = true) ∧
    rs.length = 6 ∧ (∀ c ∈ rs, (c.isUpper || c.isDigit) = true)

-- Basic clamp lemmas shared by several claims.

lemma clampQ_def (lo v hi : ℚ) : clampQ lo v hi = max lo (min v hi) := by
  rw [clampQ, maxQ_eq, minQ_eq]

lemma clampQ_self_lo (lo v hi : ℚ) (h : v = lo) : clampQ lo v hi = lo := by
  subst h
  rw [clampQ_def]
  exact max_eq_left (min_le_left _ _)

lemma clampQ_le_hi (lo v hi : ℚ) (h : lo ≤ hi) : clampQ lo v hi ≤ hi := by
  rw [clampQ_def]
  exact max_le h (min_le_right _ _)

lemma lo_le_clampQ (lo v hi : ℚ) : lo ≤ clampQ lo v hi := by
  rw [clampQ_def]
  exact le_max_left _ _

lemma clampQ_of_le_hi (lo v hi : ℚ) (h : v ≤ hi) : clampQ lo v hi = max lo v := by
  rw [clampQ_def, min_eq_left h]

lemma clampQ_eq_of_mem (lo v hi : ℚ) (h1 : lo ≤ v) (h2 : v ≤ hi) :
    clampQ lo v hi = v := by
  rw [clampQ_def, min_eq_left h2, max_eq_right h1]

lemma padding_x_nonneg (d : String) (w : ℚ) : 0 ≤ padding_x d w := by
  unfold padding_x
  split_ifs <;> rw [maxQ_eq] <;> exact le_trans (by norm_num) (le_max_left _ _)

lemma padding_y_nonneg (d : String) (h : ℚ) : 0 ≤ padding_y d h := by
  unfold padding_y
  split_ifs <;> rw [maxQ_eq] <;> exact le_trans (by norm_num) (le_max_left _ _)

-- Branch-evaluation lemmas for the alignment passes.

lemma text_x_refined_left (prev : ℚ) (x1 x2 tw : ℤ) (px : ℚ) :
    text_x_refined prev x1 x2 tw px ("left") = (x1 : ℚ) + px := by
  simp [text_x_refined]

lemma text_x_refined_right (prev : ℚ) (x1 x2 tw : ℤ) (px : ℚ) :
    text_x_refined prev x1 x2 tw px ("right") = (x2 : ℚ) - (tw : ℚ) - px := by
  simp [text_x_refined]

lemma text_x_refined_center (prev : ℚ) (x1 x2 tw : ℤ) (px : ℚ) :
    text_x_refined prev x1 x2 tw px ("center")
      = ((x1 + ((x2 - x1) - tw) / 2 : ℤ) : ℚ) := by
  simp [text_x_refined]

lemma text_y_refined_top (prev : ℚ) (y1 y2 th : ℤ) (py : ℚ) :
    text_y_refined prev y1 y2 th py ("top") = (y1 : ℚ) + py := by
  simp [text_y_refined]

lemma text_y_refined_bottom (prev : ℚ) (y1 y2 th : ℤ) (py : ℚ) :
    text_y_refined prev y1 y2 th py ("bottom") = (y2 : ℚ) - (th : ℚ) - py := by
  simp [text_y_refined]

lemma text_y_refined_center (prev : ℚ) (y1 y2 th : ℤ) (py : ℚ) :
    text_y_refined prev y1 y2 th py ("center")
      = ((y1 + ((y2 - y1) - th) / 2 : ℤ) : ℚ) := by
  simp [text_y_refined]

-- Evaluations of the full horizontal/vertical pipeline per alignment.

lemma text_x_final_left (x1 x2 tw : ℤ) (device : String) :
    text_x_final x1 x2 tw ("left") device
      = (x1 : ℚ) + padding_x device ((x2 - x1 : ℤ) : ℚ) := by
  simp only [text_x_final, text_x_refined_left]
  exact clampQ_self_lo _ _ _ rfl

lemma text_y_final_top (y1 y2 th : ℤ) (device : String) :
    text_y_final y1 y2 th ("top") device
      = (y1 : ℚ) + padding_y device ((y2 - y1 : ℤ) : ℚ) := by
  simp only [text_y_final, text_y_refined_top]
  exact clampQ_self_lo _ _ _ rfl

lemma text_x_final_right (x1 x2 tw : ℤ) (device : String)
    (h : (x1 : ℚ) + padding_x device ((x2 - x1 : ℤ) : ℚ)
      ≤ (x2 : ℚ) - (tw : ℚ) - padding_x device ((x2 - x1 : ℤ) : ℚ)) :
    text_x_final x1 x2 tw ("right") device
      = (x2 : ℚ) - (tw : ℚ) - padding_x device ((x2 - x1 : ℤ) : ℚ) := by
  simp only [text_x_final, text_x_refined_right]
  exact clampQ_eq_of_mem _ _ _ h le_rfl

lemma text_y_final_bottom (y1 y2 th : ℤ) (device : String)
    (h : (y1 : ℚ) + padding_y device ((y2 - y1 : ℤ) : ℚ)
      ≤ (y2 : ℚ) - (th : ℚ) - padding_y device ((y2 - y1 : ℤ) : ℚ)) :
    text_y_final y1 y2 th ("bottom") device
      = (y2 : ℚ) - (th : ℚ) - padding_y device ((y2 - y1 : ℤ) : ℚ) := by
  simp only [text_y_final, text_y_refined_bottom]
  exact clampQ_eq_of_mem _ _ _ h le_rfl

lemma text_x_final_center (x1 x2 tw : ℤ) (device : String)
    (h : ((x1 + ((x2 - x1) - tw) / 2 : ℤ) : ℚ)
      ≤ (x2 : ℚ) - (tw : ℚ) - padding_x device ((x2 - x1 : ℤ) : ℚ)) :
    text_x_final x1 x2 tw ("center") device
      = max ((x1 : ℚ) + padding_x device ((x2 - x1 : ℤ) : ℚ))
          ((x1 + ((x2 - x1) - tw) / 2 : ℤ) : ℚ) := by
  simp only [text_x_final, text_x_refined_center]
  exact clampQ_of_le_hi _ _ _ h

lemma text_y_final_center (y1 y2 th : ℤ) (device : String)
    (h : ((y1 + ((y2 - y1) - th) / 2 : ℤ) : ℚ)
      ≤ (y2 : ℚ) - (th : ℚ) - padding_y device ((y2 - y1 : ℤ) : ℚ)) :
    text_y_final y1 y2 th ("center") device
      = max ((y1 : ℚ) + padding_y device ((y2 - y1 : ℤ) : ℚ))
          ((y1 + ((y2 - y1) - th) / 2 : ℤ) : ℚ) := by
  simp only [text_y_final, text_y_refined_center]
  exact clampQ_of_le_hi _ _ _ h

-- Bounds of the full pipeline, used by C1.

lemma text_x_final_mem (x1 x2 tw : ℤ) (ta device : String)
    (h : (x1 : ℚ) + padding_x device ((x2 - x1 : ℤ) : ℚ)
      ≤ (x2 : ℚ) - (tw : ℚ) - padding_x device ((x2 - x1 : ℤ) : ℚ)) :
    (x1 : ℚ) + padding_x device ((x2 - x1 : ℤ) : ℚ) ≤ text_x_final x1 x2 tw ta device ∧
      text_x_final x1 x2 tw ta device
        ≤ (x2 : ℚ) - (tw : ℚ) - padding_x device ((x2 - x1 : ℤ) : ℚ) := by
  simp only [text_x_final]
  exact ⟨lo_le_clampQ _ _ _, clampQ_le_hi _ _ _ h⟩

lemma text_y_final_mem (y1 y2 th : ℤ) (va device : String)
    (h : (y1 : ℚ) + padding_y device ((y2 - y1 : ℤ) : ℚ)
      ≤ (y2 : ℚ) - (th : ℚ) - padding_y device ((y2 - y1 : ℤ) : ℚ)) :
    (y1 : ℚ) + padding_y device ((y2 - y1 : ℤ) : ℚ) ≤ text_y_final y1 y2 th va device ∧
      text_y_final y1 y2 th va device
        ≤ (y2 : ℚ) - (th : ℚ) - padding_y device ((y2 - y1 : ℤ) : ℚ) := by
  simp only [text_y_final]
  exact ⟨lo_le_clampQ _ _ _, clampQ_le_hi _ _ _ h⟩

/-- Claim C1: for every rectangle with `x2 > x1`, `y2 > y1`, every
alignment pair, every device class, and every measured text extent
`(tw, th)` with `tw < rw - 2*pad_x` and `th < rh - 2*pad_y`, the draw
origin returned by `_calculate_text_position` lies in
`[x1+pad_x, x2-tw-pad_x] × [y1+pad_y, y2-th-pad_y]`, so the text bounding
box `[x, x+tw] × [y, y+th]` lies entirely within `[x1,x2] × [y1,y2]`. -/
theorem c1_fitting_text_stays_in_rect
    (x1 y1 x2 y2 tw th : ℤ) (ta va device : String)
    (hx : x1 < x2) (hy : y1 < y2) (htw : 0 ≤ tw) (hth : 0 ≤ th)
    (hfx : (tw : ℚ) < ((x2 : ℚ) - (x1 : ℚ)) - 2 * padding_x device ((x2 - x1 : ℤ) : ℚ))
    (hfy : (th : ℚ) < ((y2 : ℚ) - (y1 : ℚ)) - 2 * padding_y device ((y2 - y1 : ℤ) : ℚ)) :
    ((x1 : ℚ) + padding_x device ((x2 - x1 : ℤ) : ℚ)
        ≤ (calculate_text_position x1 y1 x2 y2 tw th ta va device).1 ∧
      (calculate_text_position x1 y1 x2 y2 tw th ta va device).1
        ≤ (x2 : ℚ) - (tw : ℚ) - padding_x device ((x2 - x1 : ℤ) : ℚ)) ∧
    ((y1 : ℚ) + padding_y device ((y2 - y1 : ℤ) : ℚ)
        ≤ (calculate_text_position x1 y1 x2 y2 tw th ta va device).2 ∧
      (calculate_text_position x1 y1 x2 y2 tw th ta va device).2
        ≤ (y2 : ℚ) - (th : ℚ) - padding_y device ((y2 - y1 : ℤ) : ℚ)) ∧
    ((x1 : ℚ) ≤ (calculate_text_position x1 y1 x2 y2 tw th ta va device).1 ∧
      (calculate_text_position x1 y1 x2 y2 tw th ta va device).1 + (tw : ℚ) ≤ (x2 : ℚ) ∧
      (y1 : ℚ) ≤ (calculate_text_position x1 y1 x2 y2 tw th ta va device).2 ∧
      (calculate_text_position x1 y1 x2 y2 tw th ta va device).2 + (th : ℚ) ≤ (y2 : ℚ)) := by
  have hpx := padding_x_nonneg device ((x2 - x1 : ℤ) : ℚ)
  have hpy := padding_y_nonneg device ((y2 - y1 : ℤ) : ℚ)
  have hlx : (x1 : ℚ) + padding_x device ((x2 - x1 : ℤ) : ℚ)
      ≤ (x2 : ℚ) - (tw : ℚ) - padding_x device ((x2 - x1 : ℤ) : ℚ) := by linarith
  have hly : (y1 : ℚ) + padding_y device ((y2 - y1 : ℤ) : ℚ)
      ≤ (y2 : ℚ) - (th : ℚ) - padding_y device ((y2 - y1 : ℤ) : ℚ) := by linarith
  have hx1 := text_x_final_mem x1 x2 tw ta device hlx
  have hy1 := text_y_final_mem y1 y2 th va device hly
  have htwq : (0 : ℚ) ≤ (tw : ℚ) := by exact_mod_cast htw
  have hthq : (0 : ℚ) ≤ (th : ℚ) := by exact_mod_cast hth
  refine ⟨⟨hx1.1, hx1.2⟩, ⟨hy1.1, hy1.2⟩, ?_, ?_, ?_, ?_⟩ <;>
    simp only [calculate_text_position] at * <;> linarith

/-- Claim C10: a `left` horizontal alignment always yields
`x = x1 + pad_x`, and a `top` vertical alignment always yields
`y = y1 + pad_y`, for every rectangle, device class, and text extent,
including oversized text: the clamp `max(lo, min(v, hi))` applied to
`v = lo` always yields `lo`. -/
theorem c10_left_top_pinned
    (x1 y1 x2 y2 tw th : ℤ) (ta va device : String) :
    (calculate_text_position x1 y1 x2 y2 tw th ("left") va device).1
        = (x1 : ℚ) + padding_x device ((x2 - x1 : ℤ) : ℚ) ∧
    (calculate_text_position x1 y1 x2 y2 tw th ta ("top") device).2
        = (y1 : ℚ) + padding_y device ((y2 - y1 : ℤ) : ℚ) := by
  exact ⟨text_x_final_left x1 x2 tw device, text_y_final_top y1 y2 th device⟩

/-- Witness for C1 at the concrete rectangle `(0,0)-(100,50)` with text
extent `10 × 10`, `center`/`center`, device `desktop`. -/
theorem c1_witness :
    ((0 : ℚ) + padding_x ("desktop") ((100 - 0 : ℤ) : ℚ)
        ≤ (calculate_text_position 0 0 100 50 10 10 ("center") ("center") ("desktop")).1 ∧
      (calculate_text_position 0 0 100 50 10 10 ("center") ("center") ("desktop")).1
        ≤ (100 : ℚ) - (10 : ℚ) - padding_x ("desktop") ((100 - 0 : ℤ) : ℚ)) ∧
    ((0 : ℚ) + padding_y ("desktop") ((50 - 0 : ℤ) : ℚ)
        ≤ (calculate_text_position 0 0 100 50 10 10 ("center") ("center") ("desktop")).2 ∧
      (calculate_text_position 0 0 100 50 10 10 ("center") ("center") ("desktop")).2
        ≤ (50 : ℚ) - (10 : ℚ) - padding_y ("desktop") ((50 - 0 : ℤ) : ℚ)) ∧
    ((0 : ℚ) ≤ (calculate_text_position 0 0 100 50 10 10 ("center") ("center") ("desktop")).1 ∧
      (calculate_text_position 0 0 100 50 10 10 ("center") ("center") ("desktop")).1 + (10 : ℚ)
        ≤ (100 : ℚ) ∧
      (0 : ℚ) ≤ (calculate_text_position 0 0 100 50 10 10 ("center") ("center") ("desktop")).2 ∧
      (calculate_text_position 0 0 100 50 10 10 ("center") ("center") ("desktop")).2 + (10 : ℚ)
        ≤ (50 : ℚ)) :=
  c1_fitting_text_stays_in_rect 0 0 100 50 10 10 ("center") ("center") ("desktop")
    (by norm_num) (by norm_num) (by norm_num) (by norm_num)
    (by simp [padding_x, maxQ, minQ]; norm_num)
    (by simp [padding_y, maxQ, minQ]; norm_num)

/-- Counterexample to claim C2 as stated: at the rectangle
`(0,0)-(210,200)` on desktop, with measured extent `189 × 100` and
`center`/`center` alignment, the text fits
(`tw = 189 ≤ rw - 2*pad_x = 210 - 21`), yet the returned `x` is `21/2`,
not the center formula `x1 + (rw - tw) // 2 = 10`: the final clamp raises
the floored midpoint to the fractional padded lower bound. -/
theorem c2_counterexample :
    ((189 : ℚ) ≤ ((210 : ℚ) - (0 : ℚ)) - 2 * padding_x ("desktop") ((210 - 0 : ℤ) : ℚ)) ∧
    ((100 : ℚ) ≤ ((200 : ℚ) - (0 : ℚ)) - 2 * padding_y ("desktop") ((200 - 0 : ℤ) : ℚ)) ∧
    ((0 : ℤ) + ((210 - 0) - 189) / 2 = 10) ∧
    (calculate_text_position 0 0 210 200 189 100 ("center") ("center") ("desktop")).1 = 21 / 2 ∧
    ((21 : ℚ) / 2 ≠ 10) := by
  refine ⟨?_, ?_, by norm_num, ?_, by norm_num⟩
  · simp [padding_x, maxQ, minQ]
    norm_num
  · simp [padding_y, maxQ, minQ]
    norm_num
  · simp [calculate_text_position, text_x_final, text_x_aligned, text_x_refined,
      clampQ, padding_x, maxQ, minQ]
    norm_num

-- The floored midpoint never exceeds the upper clamp bound when the text
-- fits in the padded rectangle.

lemma center_x_le_hi (x1 x2 tw : ℤ) (device : String)
    (hfx : (tw : ℚ) ≤ ((x2 : ℚ) - (x1 : ℚ)) - 2 * padding_x device ((x2 - x1 : ℤ) : ℚ)) :
    ((x1 + ((x2 - x1) - tw) / 2 : ℤ) : ℚ)
      ≤ (x2 : ℚ) - (tw : ℚ) - padding_x device ((x2 - x1 : ℤ) : ℚ) := by
  have hq : 2 * (((x2 - x1) - tw) / 2) ≤ (x2 - x1) - tw := by omega
  have hqq : (2 : ℚ) * ((((x2 - x1) - tw) / 2 : ℤ) : ℚ) ≤ ((x2 : ℚ) - (x1 : ℚ)) - (tw : ℚ) := by
    exact_mod_cast hq
  push_cast at hfx hqq ⊢
  linarith

lemma center_y_le_hi (y1 y2 th : ℤ) (device : String)
    (hfy : (th : ℚ) ≤ ((y2 : ℚ) - (y1 : ℚ)) - 2 * padding_y device ((y2 - y1 : ℤ) : ℚ)) :
    ((y1 + ((y2 - y1) - th) / 2 : ℤ) : ℚ)
      ≤ (y2 : ℚ) - (th : ℚ) - padding_y device ((y2 - y1 : ℤ) : ℚ) := by
  have hq : 2 * (((y2 - y1) - th) / 2) ≤ (y2 - y1) - th := by omega
  have hqq : (2 : ℚ) * ((((y2 - y1) - th) / 2 : ℤ) : ℚ) ≤ ((y2 : ℚ) - (y1 : ℚ)) - (th : ℚ) := by
    exact_mod_cast hq
  push_cast at hfy hqq ⊢
  linarith

/-- Claim C2, amended: when the text fits in the padded rectangle
(`tw ≤ rw - 2*pad_x`, `th ≤ rh - 2*pad_y`), the layout returns exactly
the alignment formula for `left`, `right`, `top`, and `bottom`; for
`center` it returns the alignment formula
`x1 + (rw - tw) // 2` (resp. `y1 + (rh - th) // 2`) except that the
final clamp may raise it to the padded lower bound `x1 + pad_x`
(resp. `y1 + pad_y`) when the floored midpoint falls fractionally below
it, i.e. the result is the maximum of the two. -/
theorem c2_amended_alignment_formulas
    (x1 y1 x2 y2 tw th : ℤ) (ta va device : String)
    (hfx : (tw : ℚ) ≤ ((x2 : ℚ) - (x1 : ℚ)) - 2 * padding_x device ((x2 - x1 : ℤ) : ℚ))
    (hfy : (th : ℚ) ≤ ((y2 : ℚ) - (y1 : ℚ)) - 2 * padding_y device ((y2 - y1 : ℤ) : ℚ)) :
    (calculate_text_position x1 y1 x2 y2 tw th ("left") va device).1
        = (x1 : ℚ) + padding_x device ((x2 - x1 : ℤ) : ℚ) ∧
    (calculate_text_position x1 y1 x2 y2 tw th ("right") va device).1
        = (x2 : ℚ) - (tw : ℚ) - padding_x device ((x2 - x1 : ℤ) : ℚ) ∧
    (calculate_text_position x1 y1 x2 y2 tw th ("center") va device).1
        = max ((x1 : ℚ) + padding_x device ((x2 - x1 : ℤ) : ℚ))
            ((x1 + ((x2 - x1) - tw) / 2 : ℤ) : ℚ) ∧
    (calculate_text_position x1 y1 x2 y2 tw th ta ("top") device).2
        = (y1 : ℚ) + padding_y device ((y2 - y1 : ℤ) : ℚ) ∧
    (calculate_text_position x1 y1 x2 y2 tw th ta ("bottom") device).2
        = (y2 : ℚ) - (th : ℚ) - padding_y device ((y2 - y1 : ℤ) : ℚ) ∧
    (calculate_text_position x1 y1 x2 y2 tw th ta ("center") device).2
        = max ((y1 : ℚ) + padding_y device ((y2 - y1 : ℤ) : ℚ))
            ((y1 + ((y2 - y1) - th) / 2 : ℤ) : ℚ) := by
  have hlx : (x1 : ℚ) + padding_x device ((x2 - x1 : ℤ) : ℚ)
      ≤ (x2 : ℚ) - (tw : ℚ) - padding_x device ((x2 - x1 : ℤ) : ℚ) := by linarith
  have hly : (y1 : ℚ) + padding_y device ((y2 - y1 : ℤ) : ℚ)
      ≤ (y2 : ℚ) - (th : ℚ) - padding_y device ((y2 - y1 : ℤ) : ℚ) := by linarith
  exact ⟨text_x_final_left x1 x2 tw device,
    text_x_final_right x1 x2 tw device hlx,
    text_x_final_center x1 x2 tw device (center_x_le_hi x1 x2 tw device hfx),
    text_y_final_top y1 y2 th device,
    text_y_final_bottom y1 y2 th device hly,
    text_y_final_center y1 y2 th device (center_y_le_hi y1 y2 th device hfy)⟩

/-- Witness for the amended C2 at the rectangle `(0,0)-(200,100)` with
extent `50 × 20` on desktop. -/
theorem c2_witness :
    ((50 : ℚ) ≤ ((200 : ℚ) - (0 : ℚ)) - 2 * padding_x ("desktop") ((200 - 0 : ℤ) : ℚ)) ∧
    (calculate_text_position 0 0 200 100 50 20 ("left") ("center") ("desktop")).1
        = (0 : ℚ) + padding_x ("desktop") ((200 - 0 : ℤ) : ℚ) :=
  ⟨by simp [padding_x, maxQ, minQ]; norm_num,
    (c2_amended_alignment_formulas 0 0 200 100 50 20 ("center") ("center") ("desktop")
      (by simp [padding_x, maxQ, minQ]; norm_num)
      (by simp [padding_y, maxQ, minQ]; norm_num)).1⟩

/-- Counterexample to claim C8 as stated: for the rectangle
`(0,0)-(100,50)` (so `rh = 50`), the mobile vertical padding is
`max(4, min(50*0.08, 50*0.15)) = 4`, which is smaller than the desktop
vertical padding `max(5, 50*0.05) = 5` — the mobile padding is not larger
on both axes.  (The float computation agrees exactly: `50*0.08 == 4.0`.) -/
theorem c8_counterexample :
    padding_y ("mobile") 50 = 4 ∧ padding_y ("desktop") 50 = 5 ∧
      ¬ padding_y ("mobile") 50 > padding_y ("desktop") 50 := by
  refine ⟨?_, ?_, ?_⟩ <;> simp [padding_y, maxQ, minQ] <;> norm_num

/-- Claim C8, amended: for every rectangle with positive width and height,
the mobile horizontal padding is strictly larger than the desktop one; the
mobile vertical padding is strictly larger than the desktop one exactly
when `rh > 62.5` (for shorter rectangles the mobile floor `4` is at or
below the desktop value, which is at least `5`). -/
theorem c8_amended_padding_comparison (rw rh : ℚ) (hw : 0 < rw) (hh : 0 < rh) :
    padding_x ("desktop") rw < padding_x ("mobile") rw ∧
    (padding_y ("desktop") rh < padding_y ("mobile") rh ↔ 125 / 2 < rh) := by
  have hdx : padding_x ("desktop") rw = max 5 (rw * (5 / 100)) := by
    simp [padding_x, maxQ_eq]
  have hmx : padding_x ("mobile") rw = max 6 (rw * (8 / 100)) := by
    unfold padding_x
    rw [if_pos (rfl : ("mobile" : String) = "mobile"), maxQ_eq, minQ_eq,
      min_eq_left (by nlinarith)]
  have hdy : padding_y ("desktop") rh = max 5 (rh * (5 / 100)) := by
    simp [padding_y, maxQ_eq]
  have hmy : padding_y ("mobile") rh = max 4 (rh * (8 / 100)) := by
    unfold padding_y
    rw [if_pos (rfl : ("mobile" : String) = "mobile"), maxQ_eq, minQ_eq,
      min_eq_left (by nlinarith)]
  rw [hdx, hmx, hdy, hmy]
  constructor
  · rcases le_or_lt (rw * (8 / 100)) 6 with h6 | h6
    · have h5 : max (5 : ℚ) (rw * (5 / 100)) = 5 := max_eq_left (by linarith)
      rw [h5]
      exact lt_of_lt_of_le (by norm_num) (le_max_left _ _)
    · have h8 : max (6 : ℚ) (rw * (8 / 100)) = rw * (8 / 100) :=
        max_eq_right (le_of_lt h6)
      rw [h8]
      exact max_lt (by linarith) (by linarith)
  · constructor
    · intro hlt
      by_contra hle
      push_neg at hle
      have hub : max (4 : ℚ) (rh * (8 / 100)) ≤ 5 :=
        max_le (by norm_num) (by linarith)
      have hlb : (5 : ℚ) ≤ max (5 : ℚ) (rh * (5 / 100)) := le_max_left _ _
      linarith
    · intro hgt
      have h8 : max (4 : ℚ) (rh * (8 / 100)) = rh * (8 / 100) :=
        max_eq_right (by linarith)
      rw [h8]
      exact max_lt (by linarith) (by linarith)

/-- Witness for the amended C8 at `rw = rh = 100`. -/
theorem c8_witness :
    (0 : ℚ) < 100 ∧
    (padding_x ("desktop") 100 < padding_x ("mobile") 100 ∧
      (padding_y ("desktop") 100 < padding_y ("mobile") 100 ↔ (125 : ℚ) / 2 < 100)) :=
  ⟨by norm_num, c8_amended_padding_comparison 100 100 (by norm_num) (by norm_num)⟩

/-- Counterexample to claim C3 as stated: base font size 18 on mobile is
resolved by the code as `int(18 * 1.2) = int(21.6) = 21` (truncation), not
`round(21.6) = 22` as the claim states.  (The float computation agrees:
`int(18 * 1.2) == 21` in Python.) -/
theorem c3_counterexample :
    resolved_font_size ("mobile") 18 = 21 ∧
    round ((18 : ℚ) * device_multiplier ("mobile")) = 22 ∧
    (21 : ℕ) ≠ 22 := by
  refine ⟨?_, ?_, by norm_num⟩
  · simp [resolved_font_size, device_multiplier]
    norm_num
    decide
  · simp [device_multiplier]
    rw [round_eq]
    norm_num

/-- Claim C3, amended: the font size passed to the loader is
`int(b * m)`, i.e. the floor (truncation of a nonnegative value) of the
base size times the device multiplier: identity on desktop, `6*b/5`
(integer division) on mobile, `21*b/20` for any other device class. -/
theorem c3_amended_truncated_font_size (b : ℕ) (device : String) :
    resolved_font_size ("desktop") b = b ∧
    resolved_font_size ("mobile") b = 6 * b / 5 ∧
    (device ≠ "mobile" → device ≠ "desktop" →
      resolved_font_size device b = 21 * b / 20) := by
  refine ⟨?_, ?_, fun h1 h2 => ?_⟩
  · simp [resolved_font_size, device_multiplier, Int.floor_natCast]
  · have hcast : ((b : ℚ)) * (6 / 5) = ((6 * b : ℕ) : ℚ) / ((5 : ℕ) : ℚ) := by
      push_cast
      ring
    unfold resolved_font_size device_multiplier
    rw [if_pos (rfl : ("mobile" : String) = "mobile"), hcast, Int.floor_toNat,
      Nat.floor_div_nat, Nat.floor_natCast]
  · have hcast : ((b : ℚ)) * (21 / 20) = ((21 * b : ℕ) : ℚ) / ((20 : ℕ) : ℚ) := by
      push_cast
      ring
    unfold resolved_font_size device_multiplier
    rw [if_neg h1, if_neg h2, hcast, Int.floor_toNat,
      Nat.floor_div_nat, Nat.floor_natCast]

/-- Witness for the amended C3 at base size 18 and device class
`"tablet"`: desktop keeps 18, mobile truncates `21.6` to `21`, and the
unknown class truncates `18.9` to `18`. -/
theorem c3_witness :
    ("tablet" : String) ≠ "mobile" ∧ ("tablet" : String) ≠ "desktop" ∧
    (resolved_font_size ("desktop") 18 = 18 ∧
      resolved_font_size ("mobile") 18 = 6 * 18 / 5 ∧
      resolved_font_size ("tablet") 18 = 21 * 18 / 20) := by
  have h := c3_amended_truncated_font_size 18 ("tablet")
  exact ⟨by decide, by decide,
    ⟨h.1, h.2.1, h.2.2 (by decide) (by decide)⟩⟩

-- The stroke renderer always emits (2r+1)^2 halo draws plus the real text.

lemma render_name_field_length (ph : Placeholder) (a : ℤ) (s : String)
    (tw th : ℤ) (d : String) :
    (render_name_field ph a s tw th d).length = 26 := rfl

/-- Counterexample to claim C4 as stated: for a placeholder with the
zero-area rectangle `(100,50)-(100,80)` (`x2 = x1`), `generate_certificate`
does not surface any failure — there is no zero-area check anywhere on the
path — and the student-name text is still drawn: the render emits its
usual 26 draw operations (25 halo passes plus the ink pass). -/
theorem c4_counterexample :
    (Placeholder.mk (some 100) 50 100 80 none none none none).x2 ≤ 100 ∧
    (render_name_field (Placeholder.mk (some 100) 50 100 80 none none none none)
        100 ("Alice Johnson") 60 20 ("desktop")).length = 26 ∧
    render_name_field (Placeholder.mk (some 100) 50 100 80 none none none none)
        100 ("Alice Johnson") 60 20 ("desktop") ≠ [] := by
  refine ⟨by norm_num, rfl, ?_⟩
  intro hnil
  have := congrArg List.length hnil
  simp [render_name_field_length] at this

/-- Claim C4, amended: `generate_certificate` performs no zero-area
validation.  For every placeholder whose rectangle is degenerate
(`x2 ≤ x1` or `y2 ≤ y1`) the name field is still rendered — the layout
clamps the position and 26 text-draw operations are emitted — and no
failure is surfaced for that request. -/
theorem c4_amended_no_zero_area_check
    (ph : Placeholder) (a : ℤ) (student_name : String) (tw th : ℤ) (device : String)
    (hx1 : ph.x1 = some a) (hdeg : ph.x2 ≤ a ∨ ph.y2 ≤ ph.y1) :
    (render_name_field ph a student_name tw th device).length = 26 ∧
    render_name_field ph a student_name tw th device ≠ [] := by
  refine ⟨render_name_field_length ph a student_name tw th device, ?_⟩
  intro hnil
  have := congrArg List.length hnil
  simp [render_name_field_length] at this

/-- Witness for the amended C4 at the degenerate placeholder
`(100,50)-(100,80)`. -/
theorem c4_witness :
    (render_name_field (Placeholder.mk (some 100) 50 100 80 none none none none)
        100 ("Bob") 40 15 ("mobile")).length = 26 ∧
    render_name_field (Placeholder.mk (some 100) 50 100 80 none none none none)
        100 ("Bob") 40 15 ("mobile") ≠ [] :=
  c4_amended_no_zero_area_check
    (Placeholder.mk (some 100) 50 100 80 none none none none)
    100 ("Bob") 40 15 ("mobile") rfl (Or.inl (by norm_num))

/-- Counterexample to claim C9 as stated: the color string `"#zz"` is not
a valid hex RGB color, yet the compositor uses it as given (the source
only checks truthiness and `startswith("#")`, `backend/services.py`
lines 344-346), instead of substituting the default `#0b2a4a`. -/
theorem c9_counterexample :
    is_valid_hex_color ("#zz") = false ∧
    parse_color (some ("#zz")) = "#zz" ∧
    ("#zz" : String) ≠ default_text_color := by
  refine ⟨by decide, by decide, by decide⟩

/-- Claim C9, amended: the compositor substitutes the default ink color
`#0b2a4a` exactly when the color value is absent, empty, or does not start
with `#`; any string starting with `#` — valid hex or not — is used as
given.  In particular every well-formed `#RRGGBB` color is used as
given. -/
theorem c9_amended_color_rule (s : String) :
    (parse_color none = default_text_color) ∧
    (s.data.isEmpty = true → parse_color (some s) = default_text_color) ∧
    (s.data.isEmpty = false → starts_with_hash s = false →
      parse_color (some s) = default_text_color) ∧
    (s.data.isEmpty = false → starts_with_hash s = true → parse_color (some s) = s) ∧
    (is_valid_hex_color s = true → parse_color (some s) = s) := by
  refine ⟨rfl, fun he => by simp [parse_color, he], fun he hs => by simp [parse_color, he, hs],
    fun he hs => by simp [parse_color, he, hs], fun hv => ?_⟩
  have hdata : ∃ rest, s.data = '#' :: rest := by
    unfold is_valid_hex_color at hv
    rcases hds : s.data with _ | ⟨c, rest⟩
    · rw [hds] at hv
      simp at hv
    · rw [hds] at hv
      split at hv
      · rename_i r heq
        injection heq with h1 h2
        subst h1
        exact ⟨rest, rfl⟩
      · simp at hv
  obtain ⟨rest, hrest⟩ := hdata
  have hemp : s.data.isEmpty = false := by
    rw [hrest]
    rfl
  have hsw : starts_with_hash s = true := by
    unfold starts_with_hash
    rw [hrest]
    simp
  simp [parse_color, hemp, hsw]

/-- Witness for the amended C9 at the well-formed color `"#0a1b2c"` and at
the hash-prefixed value `"#zz"`. -/
theorem c9_witness :
    is_valid_hex_color ("#0a1b2c") = true ∧
    parse_color (some ("#0a1b2c")) = "#0a1b2c" :=
  ⟨by decide, (c9_amended_color_rule ("#0a1b2c")).2.2.2.2 (by decide)⟩

example : calculate_text_position 0 0 210 200 189 100 ("center") ("center") ("desktop")
    = (21 / 2, 50) := by
  simp [calculate_text_position, text_x_final, text_y_final, text_x_aligned,
    text_y_aligned, text_x_refined, text_y_refined, clampQ, padding_x, padding_y,
    maxQ, minQ]
  norm_num

-- If every candidate in a list fails to load, the loop falls through to
-- the built-in default font.

lemma resolve_font_aux_all_fail (loader : String → ℕ → Bool) (size : ℕ)
    (l : List String) (hall : ∀ q ∈ l, loader q size = false) :
    resolve_font_aux loader size l = FontHandle.load_default size := by
  induction l with
  | nil => rfl
  | cons p ps ih =>
    rw [resolve_font_aux, hall p (List.mem_cons_self p ps)]
    simp only [Bool.false_eq_true, if_false]
    exact ih (fun q hq => hall q (List.mem_cons_of_mem p hq))

/-- Claim C6: font resolution is total (the embedding is a total function:
every Python exception on this path is caught and turned into trying the
next candidate, `backend/services.py` lines 376-395): a failing candidate
is skipped and the next one tried, a succeeding candidate is returned at
the requested size, and if every candidate in `font_paths` fails, the
built-in default bitmap font is returned with the originally requested
size recorded as `requested_size` on the handle. -/
theorem c6_font_resolution_total_fallback
    (loader : String → ℕ → Bool) (size : ℕ) (p : String) (ps : List String) :
    ((∀ q ∈ font_paths, loader q size = false) →
      resolve_font loader size = FontHandle.load_default size) ∧
    (loader p size = false →
      resolve_font_aux loader size (p :: ps) = resolve_font_aux loader size ps) ∧
    (loader p size = true →
      resolve_font_aux loader size (p :: ps) = FontHandle.truetype p size) := by
  refine ⟨fun hall => resolve_font_aux_all_fail loader size font_paths hall,
    fun hf => ?_, fun ht => ?_⟩
  · rw [resolve_font_aux, hf]
    simp
  · rw [resolve_font_aux, ht]
    simp

/-- Witness for C6: with a loader on which every path fails, size 12 is
recorded on the default handle. -/
theorem c6_witness :
    resolve_font (fun _ _ => false) 12 = FontHandle.load_default 12 :=
  (c6_font_resolution_total_fallback (fun _ _ => false) 12 ("") []).1
    (fun _ _ => rfl)

/-- Claim C7: the QR payload is exactly the configured base URL followed
by `/verify/` and the certificate identifier of this composition — the
same identifier drawn as the certificate-number text — the QR image is
resized to exactly 150 × 150, and it is pasted at the placeholder's
`(x1, y1)` when present (no alignment or padding adjustment), else at the
fixed bottom-right fallback `(width - 150 - 50, height - 150 - 50)`. -/
theorem c7_qr_payload_and_paste
    (base_url certificate_id : String) (qr_ph : Option Placeholder) (w h : ℤ)
    (a b x2c y2c : ℤ) (c : Option String) (fs : Option ℕ) (ta va : Option String)
    (ph : Placeholder) (cx tw th : ℤ) (device : String) :
    (qr_step base_url certificate_id qr_ph w h).payload
        = base_url ++ "/verify/" ++ certificate_id ∧
    (qr_step base_url certificate_id qr_ph w h).qr_w = 150 ∧
    (qr_step base_url certificate_id qr_ph w h).qr_h = 150 ∧
    ((qr_step base_url certificate_id
        (some (Placeholder.mk (some a) b x2c y2c c fs ta va)) w h).paste_x = a ∧
      (qr_step base_url certificate_id
        (some (Placeholder.mk (some a) b x2c y2c c fs ta va)) w h).paste_y = b) ∧
    ((qr_step base_url certificate_id none w h).paste_x = w - 150 - 50 ∧
      (qr_step base_url certificate_id none w h).paste_y = h - 150 - 50) ∧
    (render_cert_no_field ph cx certificate_id tw th device).all
        (fun op => op.content == certificate_id) = true := by
  refine ⟨rfl, rfl, rfl, ⟨rfl, rfl⟩, ⟨rfl, rfl⟩, ?_⟩
  rw [List.all_eq_true]
  intro op hop
  simp only [render_cert_no_field, draw_text_with_stroke, List.mem_append,
    List.mem_map, List.mem_singleton] at hop
  rcases hop with ⟨d2, _, rfl⟩ | rfl <;> simp

-- Every digit character produced by the date formatter is a decimal digit.

lemma digit_char_isDigit (n : ℕ) : (digit_char n).isDigit = true := by
  have h : n % 10 = 0 ∨ n % 10 = 1 ∨ n % 10 = 2 ∨ n % 10 = 3 ∨ n % 10 = 4 ∨
      n % 10 = 5 ∨ n % 10 = 6 ∨ n % 10 = 7 ∨ n % 10 = 8 ∨ n % 10 = 9 := by omega
  unfold digit_char
  rcases h with h | h | h | h | h | h | h | h | h | h <;> rw [h] <;> decide

-- Every character of the suffix alphabet is an uppercase letter or digit.

lemma cert_id_alphabet_ok (j : Fin 36) :
    ((cert_id_alphabet.getD j.val 'A').isUpper
      || (cert_id_alphabet.getD j.val 'A').isDigit) = true := by
  revert j
  decide

/-- Claim C5: for any clock reading with a four-digit year and valid
month/day, and any draws from the 36-character alphabet, the string
returned by `generate_certificate_id` matches `^TBS-\d{8}-[A-Z0-9]{6}$`:
literal `TBS-`, eight date digits `YYYYMMDD`, a hyphen, and six characters
from `A-Z0-9` (drawn by `secrets.choice`, a cryptographically secure
source, modelled by the oracle `pick`). -/
theorem c5_cert_id_format (y m d : ℕ) (pick : Fin 6 → Fin 36)
    (hy : 1000 ≤ y) (hy2 : y ≤ 9999) (hm1 : 1 ≤ m) (hm2 : m ≤ 12)
    (hd1 : 1 ≤ d) (hd2 : d ≤ 31) :
    cert_id_format (generate_certificate_id y m d pick) := by
  refine ⟨date_yyyymmdd y m d,
    (List.finRange 6).map (fun i => cert_id_alphabet.getD (pick i).val 'A'),
    ?_, ?_, ?_, ?_, ?_⟩
  · show ("TBS-".data ++ date_yyyymmdd y m d ++ "-".data ++ _ : List Char) = _
    simp [List.append_assoc]
  · simp [date_yyyymmdd, digits4, digits2]
  · intro c hc
    have hflat : c = digit_char (y / 1000) ∨ c = digit_char (y / 100) ∨
        c = digit_char (y / 10) ∨ c = digit_char y ∨ c = digit_char (m / 10) ∨
        c = digit_char m ∨ c = digit_char (d / 10) ∨ c = digit_char d := by
      simpa [date_yyyymmdd, digits4, digits2, or_assoc] using hc
    rcases hflat with h | h | h | h | h | h | h | h <;> rw [h] <;>
      exact digit_char_isDigit _
  · simp
  · intro c hc
    simp only [List.mem_map] at hc
    obtain ⟨i, _, rfl⟩ := hc
    exact cert_id_alphabet_ok (pick i)

/-- Witness for C5 at the clock reading 2025-10-12 with all draws equal to
the first alphabet character. -/
theorem c5_witness :
    1000 ≤ 2025 ∧
    cert_id_format (generate_certificate_id 2025 10 12 (fun _ => 0)) :=
  ⟨by norm_num, c5_cert_id_format 2025 10 12 (fun _ => 0) (by norm_num)
    (by norm_num) (by norm_num) (by norm_num) (by norm_num) (by norm_num)⟩
